import Mathlib

/-!
Verification of the Rust kernel IRQ abstraction layer
(rust/kernel/irq.rs, rust/kernel/device/irq.rs, rust/kernel/irq/revocable.rs)
via a shallow embedding in Lean 4.

Pointers are modelled as natural numbers, with 0 playing the role of the
null pointer.  Calls into the C kernel subsystem (request_irq, free_irq,
enable_irq, ...) are modelled as events in a trace, since they only have
external side effects.  Machine integers never overflow in the modelled
code paths, so Nat/Int are used directly.
-/

namespace LinuxIrq

/-- `IrqReturn` from rust/kernel/irq.rs: tri-state result of an interrupt
handler.  The numeric representation values come from the C enum
`irqreturn` (IRQ_NONE = 0, IRQ_HANDLED = 1, IRQ_WAKE_THREAD = 2). -/
inductive IrqReturn where
  | None
  | Handled
  | WakeThread
deriving DecidableEq, Repr

/-- The `#[repr(u32)]` numeric encoding of `IrqReturn`, used when the
trampoline casts the handler result back to a C `unsigned int`. -/
def IrqReturn.toNat : IrqReturn → Nat
  | .None => 0
  | .Handled => 1
  | .WakeThread => 2

/-- Raw value of the C flag IRQF_SHARED. -/
def IRQF_SHARED : Nat := 0x80

/-- Raw value of the C flag IRQF_ONESHOT. -/
def IRQF_ONESHOT : Nat := 0x2000

/-- Raw value of the C flag IRQF_NO_THREAD. -/
def IRQF_NO_THREAD : Nat := 0x10000

/-- `IrqFlags` from rust/kernel/irq.rs: a typed wrapper over the raw
`c_ulong` bitmask of registration flags. -/
structure IrqFlags where
  raw : Nat
deriving DecidableEq, Repr

/-- `IrqFlags::NONE`. -/
def IrqFlags.NONE : IrqFlags := ⟨0⟩

/-- `IrqFlags::SHARED`. -/
def IrqFlags.SHARED : IrqFlags := ⟨IRQF_SHARED⟩

/-- `IrqFlags::ONESHOT`. -/
def IrqFlags.ONESHOT : IrqFlags := ⟨IRQF_ONESHOT⟩

/-- `IrqFlags::NO_THREAD`. -/
def IrqFlags.NO_THREAD : IrqFlags := ⟨IRQF_NO_THREAD⟩

/-- The `BitOr` implementation for `IrqFlags`: `Self(self.0 | rhs.0)`. -/
def IrqFlags.bitor (a b : IrqFlags) : IrqFlags := ⟨a.raw ||| b.raw⟩

/-- `IrqFlags::shared`: `Self(self.0 | Self::SHARED.0)`. -/
def IrqFlags.shared (f : IrqFlags) : IrqFlags := ⟨f.raw ||| IrqFlags.SHARED.raw⟩

/-- `IrqFlags::oneshot`: `Self(self.0 | Self::ONESHOT.0)`. -/
def IrqFlags.oneshot (f : IrqFlags) : IrqFlags := ⟨f.raw ||| IrqFlags.ONESHOT.raw⟩

theorem IrqFlags.raw_bitor (a b : IrqFlags) : (a.bitor b).raw = a.raw ||| b.raw := rfl

theorem IrqFlags.ext_raw {a b : IrqFlags} (h : a.raw = b.raw) : a = b := by
  cases a; cases b; simpa using h

/-- C10: `IrqFlags` is a faithful bitmask algebra: `(a | b).raw()` equals
`a.raw() | b.raw()`; `IrqFlags::NONE` is a two-sided identity for `|`;
`|` is commutative and associative; and the `shared()` and `oneshot()`
combinators are idempotent. -/
theorem C10_irqflags_bitmask_algebra :
    (∀ a b : IrqFlags, (a.bitor b).raw = a.raw ||| b.raw) ∧
    (∀ a : IrqFlags, IrqFlags.NONE.bitor a = a ∧ a.bitor IrqFlags.NONE = a) ∧
    (∀ a b : IrqFlags, a.bitor b = b.bitor a) ∧
    (∀ a b c : IrqFlags, (a.bitor b).bitor c = a.bitor (b.bitor c)) ∧
    (∀ a : IrqFlags, a.shared.shared = a.shared ∧ a.oneshot.oneshot = a.oneshot) := by
  refine ⟨fun a b => rfl, fun a => ⟨?_, ?_⟩, fun a b => ?_, fun a b c => ?_, fun a => ⟨?_, ?_⟩⟩
  · exact IrqFlags.ext_raw (by simp [IrqFlags.bitor, IrqFlags.NONE])
  · exact IrqFlags.ext_raw (by simp [IrqFlags.bitor, IrqFlags.NONE])
  · exact IrqFlags.ext_raw (by simp [IrqFlags.bitor, Nat.lor_comm])
  · exact IrqFlags.ext_raw (by simp [IrqFlags.bitor, Nat.lor_assoc])
  · exact IrqFlags.ext_raw (by simp [IrqFlags.shared, Nat.lor_assoc])
  · exact IrqFlags.ext_raw (by simp [IrqFlags.oneshot, Nat.lor_assoc])

/-- Modelled from the spec: the kernel type `Revocable<T>`
(rust/kernel/revocable.rs) is used by rust/kernel/irq/revocable.rs but its
source is not among the provided files.  Spec section 3 "Revocable Handler
Data" describes it as a cell holding `value: T` (owned by the cell) and
`live: bool` (flips exactly once from true to false); once `live` is false
no new access to `value` is granted, while accesses already in progress may
complete. -/
structure Revocable (T : Type) where
  value : T
  live : Bool
deriving DecidableEq, Repr

/-- Modelled from the spec: a freshly created cell is live. -/
def Revocable.new (v : T) : Revocable T := ⟨v, true⟩

/-- Modelled from the spec: `revoke()` sets `live` to false; only the first
call has effect, and the first call is the only transition of `live`. -/
def Revocable.revoke (r : Revocable T) : Revocable T := { r with live := false }

/-- Modelled from the spec: `try_access() -> Option<Guard>` returns read
access to `value` if `live` is true at the time of the call, and
"unavailable" (`none`) otherwise. -/
def Revocable.try_access (r : Revocable T) : Option T :=
  if r.live then some r.value else none

/-- `RevocableHandler::handle_irq` from rust/kernel/irq/revocable.rs:
`if let Some(_data_ref) = data.try_access() { IrqReturn::Handled } else
{ IrqReturn::None }`. -/
def RevocableHandler.handle_irq (data : Revocable T) : IrqReturn :=
  match data.try_access with
  | some _ => .Handled
  | none => .None

/-- The hard stage `RevocableThreadedHandler::handle_irq` from
rust/kernel/irq/revocable.rs: `if data.try_access().is_some()
{ IrqReturn::WakeThread } else { IrqReturn::None }`. -/
def RevocableThreadedHandler.handle_irq (data : Revocable T) : IrqReturn :=
  if data.try_access.isSome then .WakeThread else .None

/-- The thread stage `RevocableThreadedHandler::handle_thread` from
rust/kernel/irq/revocable.rs: `if let Some(_data_ref) = data.try_access()
{ IrqReturn::Handled } else { IrqReturn::None }`. -/
def RevocableThreadedHandler.handle_thread (data : Revocable T) : IrqReturn :=
  match data.try_access with
  | some _ => .Handled
  | none => .None

/-- C4: the non-threaded revocable handler returns `Handled` exactly when
`try_access()` succeeds and `None` exactly when it fails; the threaded
variant's hard stage returns `WakeThread` exactly when `try_access()`
succeeds and `None` otherwise; its thread stage re-checks access, returning
`Handled` on success and `None` on failure; none of the three ever returns
any other `IrqReturn` value. -/
theorem C4_revocable_handler_results (T : Type) (d : Revocable T) :
    (RevocableHandler.handle_irq d = .Handled ↔ d.try_access.isSome) ∧
    (RevocableHandler.handle_irq d = .None ↔ ¬d.try_access.isSome) ∧
    (RevocableThreadedHandler.handle_irq d = .WakeThread ↔ d.try_access.isSome) ∧
    (RevocableThreadedHandler.handle_irq d = .None ↔ ¬d.try_access.isSome) ∧
    (RevocableThreadedHandler.handle_thread d = .Handled ↔ d.try_access.isSome) ∧
    (RevocableThreadedHandler.handle_thread d = .None ↔ ¬d.try_access.isSome) ∧
    (RevocableHandler.handle_irq d = .Handled ∨ RevocableHandler.handle_irq d = .None) ∧
    (RevocableThreadedHandler.handle_irq d = .WakeThread ∨
      RevocableThreadedHandler.handle_irq d = .None) ∧
    (RevocableThreadedHandler.handle_thread d = .Handled ∨
      RevocableThreadedHandler.handle_thread d = .None) := by
  cases hl : d.live <;>
    simp [RevocableHandler.handle_irq, RevocableThreadedHandler.handle_irq,
      RevocableThreadedHandler.handle_thread, Revocable.try_access, hl]

/-- A sequential program over one revocable cell: each step either calls
`try_access` (read-only) or `revoke`. -/
inductive RevOp where
  | tryAccess
  | revoke
deriving DecidableEq, Repr

/-- Effect of one sequential step on the cell state. -/
def applyRevOp (r : Revocable T) : RevOp → Revocable T
  | .tryAccess => r
  | .revoke => r.revoke

/-- Run a sequence of steps on the cell. -/
def runRevOps (r : Revocable T) : List RevOp → Revocable T
  | [] => r
  | op :: ops => runRevOps (applyRevOp r op) ops

theorem runRevOps_value (r : Revocable T) (ops : List RevOp) :
    (runRevOps r ops).value = r.value := by
  induction ops generalizing r with
  | nil => rfl
  | cons op ops ih => cases op <;> simp [runRevOps, applyRevOp, Revocable.revoke, ih]

theorem runRevOps_no_revoke (r : Revocable T) (ops : List RevOp)
    (h : RevOp.revoke ∉ ops) : runRevOps r ops = r := by
  induction ops with
  | nil => rfl
  | cons op ops ih =>
    cases op with
    | tryAccess => simp_all [runRevOps, applyRevOp]
    | revoke => simp at h

theorem runRevOps_dead (r : Revocable T) (ops : List RevOp)
    (h : r.live = false) : (runRevOps r ops).live = false := by
  induction ops generalizing r with
  | nil => exact h
  | cons op ops ih => cases op <;> simp_all [runRevOps, applyRevOp, Revocable.revoke]

theorem runRevOps_mem_revoke (r : Revocable T) (ops : List RevOp)
    (h : RevOp.revoke ∈ ops) : (runRevOps r ops).live = false := by
  induction ops generalizing r with
  | nil => simp at h
  | cons op ops ih =>
    cases op with
    | tryAccess => simp at h; simpa [runRevOps, applyRevOp] using ih r h
    | revoke => exact runRevOps_dead r.revoke ops rfl

/-- C5: in a sequential execution starting from a fresh cell, every
`try_access` call made strictly before any `revoke` returns the stored
value, and every `try_access` call made strictly after a `revoke` has
returned yields `none` — never stale data. -/
theorem C5_try_access_before_after_revoke (T : Type) (v : T) (ops : List RevOp) :
    (RevOp.revoke ∉ ops → (runRevOps (Revocable.new v) ops).try_access = some v) ∧
    (RevOp.revoke ∈ ops → (runRevOps (Revocable.new v) ops).try_access = none) := by
  constructor
  · intro h
    rw [runRevOps_no_revoke _ _ h]
    simp [Revocable.new, Revocable.try_access]
  · intro h
    have := runRevOps_mem_revoke (Revocable.new v) ops h
    simp [Revocable.try_access, this]

theorem C5_try_access_before_after_revoke_witness :
    (runRevOps (Revocable.new 5) [RevOp.tryAccess]).try_access = some 5 ∧
    (runRevOps (Revocable.new 5) [RevOp.revoke, RevOp.tryAccess]).try_access = none :=
  ⟨(C5_try_access_before_after_revoke Nat 5 [RevOp.tryAccess]).1 (by decide),
   (C5_try_access_before_after_revoke Nat 5 [RevOp.revoke, RevOp.tryAccess]).2 (by decide)⟩

/-- C7: `revoke()` is idempotent: for every cell and every N ≥ 1, calling
`revoke` N times yields the same state (hence the same liveness flag and the
same subsequent `try_access` results) as calling it exactly once; moreover
the `live` flag never transitions back to true under any sequence of
operations (it flips from true to false at most once). -/
theorem C7_revoke_idempotent (T : Type) (r : Revocable T) (n : Nat) (hn : 1 ≤ n) :
    Revocable.revoke^[n] r = r.revoke ∧
    (r.revoke).live = false ∧
    (∀ ops : List RevOp, (runRevOps r ops).live = true → r.live = true) ∧
    (∀ ops : List RevOp, r.live = false → (runRevOps r ops).live = false) := by
  refine ⟨?_, rfl, ?_, fun ops h => runRevOps_dead r ops h⟩
  · induction n with
    | zero => omega
    | succ m ih =>
      cases Nat.eq_or_lt_of_le hn with
      | inl h1 =>
        have : m = 0 := by omega
        subst this
        simp
      | inr h1 =>
        have hm : 1 ≤ m := by omega
        rw [Function.iterate_succ_apply', ih hm]
        rfl
  · intro ops h
    cases hr : r.live with
    | false =>
      rw [runRevOps_dead r ops hr] at h
      exact absurd h (by simp)
    | true => rfl

theorem C7_revoke_idempotent_witness :
    Revocable.revoke^[3] (Revocable.new 5) = (Revocable.new 5).revoke ∧
    ((Revocable.new 5).revoke).live = false ∧
    (∀ ops : List RevOp, (runRevOps (Revocable.new 5) ops).live = true →
      (Revocable.new 5).live = true) ∧
    (∀ ops : List RevOp, (Revocable.new 5).live = false →
      (runRevOps (Revocable.new 5) ops).live = false) :=
  C7_revoke_idempotent Nat (Revocable.new 5) 3 (by decide)

/-- Identity of a shared heap cell holding a `Revocable` value; an
`Arc<Revocable<T>>` is modelled as such an id. -/
abbrev CellId := Nat

/-- The heap of shared revocable cells. -/
def Heap (T : Type) := CellId → Revocable T

/-- Point update of the heap. -/
def Heap.set (h : Heap T) (i : CellId) (c : Revocable T) : Heap T :=
  fun j => if j = i then c else h j

/-- `RevocableIrqData<T>` from rust/kernel/irq/revocable.rs: a wrapper
holding `inner: Arc<Revocable<T>>`, i.e. a shared reference to one heap
cell. -/
structure RevocableIrqData where
  inner : CellId
deriving DecidableEq, Repr

/-- A `RevocableGuard` handed out by `try_access`: read access bound to the
cell it was acquired from. -/
structure RevocableGuard where
  cell : CellId
deriving DecidableEq, Repr

/-- Reading through an already-acquired guard (dereferencing the guard in
the source). -/
def RevocableGuard.read (g : RevocableGuard) (h : Heap T) : T := (h g.cell).value

/-- `RevocableIrqData::clone` from rust/kernel/irq/revocable.rs:
`Self { inner: self.inner.clone() }` — cloning the `Arc` yields a new
handle to the same cell and copies no value, so in the model the handle is
unchanged. -/
def RevocableIrqData.clone (d : RevocableIrqData) : RevocableIrqData := ⟨d.inner⟩

/-- `RevocableIrqData::revoke`: `self.inner.revoke()`, acting on the shared
cell the handle points to. -/
def RevocableIrqData.revoke (T : Type) (d : RevocableIrqData) (h : Heap T) : Heap T :=
  h.set d.inner (h d.inner).revoke

/-- `RevocableIrqData::try_access`: `self.inner.try_access()`, returning a
guard on the shared cell when it is live. -/
def RevocableIrqData.try_access (T : Type) (d : RevocableIrqData) (h : Heap T) :
    Option RevocableGuard :=
  if (h d.inner).live then some ⟨d.inner⟩ else none

/-- C8: clones of a `RevocableIrqData` share one underlying cell: if a
guard is acquired via `try_access` on one handle and `revoke` is then
called on a clone, the already-acquired guard still reads the original
value, while every new `try_access` on any handle of the same cell
afterwards returns `none`; `clone` returns a handle to the very same cell
and never copies the stored value. -/
theorem C8_clone_shares_cell (T : Type) (v : T) (h : Heap T) (d : RevocableIrqData)
    (g : RevocableGuard) (hcell : h d.inner = Revocable.new v)
    (hacq : RevocableIrqData.try_access T d h = some g) :
    d.clone = d ∧
    RevocableGuard.read g (RevocableIrqData.revoke T d.clone h) = v ∧
    RevocableIrqData.try_access T d (RevocableIrqData.revoke T d.clone h) = none ∧
    (∀ e : RevocableIrqData, e.inner = d.inner →
      RevocableIrqData.try_access T e (RevocableIrqData.revoke T d.clone h) = none) := by
  have hg : g = ⟨d.inner⟩ := by
    by_cases hl : (h d.inner).live <;>
      simp [RevocableIrqData.try_access, hl] at hacq
    exact hacq.symm
  subst hg
  refine ⟨rfl, ?_, ?_, ?_⟩
  · simp [RevocableGuard.read, RevocableIrqData.revoke, RevocableIrqData.clone,
      Heap.set, Revocable.revoke, hcell, Revocable.new]
  · simp [RevocableIrqData.try_access, RevocableIrqData.revoke, RevocableIrqData.clone,
      Heap.set, Revocable.revoke]
  · intro e he
    simp [RevocableIrqData.try_access, RevocableIrqData.revoke, RevocableIrqData.clone,
      Heap.set, Revocable.revoke, he]

theorem C8_clone_shares_cell_witness :
    RevocableIrqData.clone ⟨0⟩ = ⟨0⟩ ∧
    RevocableGuard.read ⟨0⟩
      (RevocableIrqData.revoke Nat (RevocableIrqData.clone ⟨0⟩)
        (fun _ => Revocable.new 5)) = 5 ∧
    RevocableIrqData.try_access Nat ⟨0⟩
      (RevocableIrqData.revoke Nat (RevocableIrqData.clone ⟨0⟩)
        (fun _ => Revocable.new 5)) = none ∧
    (∀ e : RevocableIrqData, e.inner = RevocableIrqData.inner ⟨0⟩ →
      RevocableIrqData.try_access Nat e
        (RevocableIrqData.revoke Nat (RevocableIrqData.clone ⟨0⟩)
          (fun _ => Revocable.new 5)) = none) :=
  C8_clone_shares_cell Nat 5 (fun _ => Revocable.new 5) ⟨0⟩ ⟨0⟩ rfl rfl

/-- Calls from the Rust layer into the C interrupt subsystem, recorded as
trace events (they have only external side effects), plus the release of
the registration object's backing memory as performed by its owner after
`drop` returns. -/
inductive KernelCall where
  | request_irq (irq : Nat) (flags : Nat) (dev_id : Nat)
  | request_threaded_irq (irq : Nat) (flags : Nat) (dev_id : Nat)
  | free_irq (irq : Nat) (dev_id : Nat)
  | enable_irq (irq : Nat)
  | disable_irq (irq : Nat)
  | disable_irq_nosync (irq : Nat)
  | memRelease (addr : Nat)
deriving DecidableEq, Repr

/-- Whether a kernel call is `free_irq` (unregistration). -/
def KernelCall.isFree : KernelCall → Bool
  | .free_irq _ _ => true
  | _ => false

/-- `IrqRegistration<T>` from rust/kernel/irq.rs: `irq: u32`,
`handler_data: T::Data` (pinned), `dev_id: *mut c_void`.  The pointer field
`dev_id` is modelled as a `Nat`, with 0 for null. -/
structure IrqRegistration (Data : Type) where
  irq : Nat
  handler_data : Data
  dev_id : Nat

/-- Result of in-place initialization: either the slot panics (which in the
kernel aborts the whole system) or the fully initialized object. -/
inductive RequestOutcome (R : Type) where
  | panicked
  | ok (reg : R)

/-- Whether a `RequestOutcome` produced an object. -/
def RequestOutcome.isOk : RequestOutcome R → Bool
  | .ok _ => true
  | .panicked => false

/-- The state of the slot written by the `pin_init!` block of
`IrqRegistration::request`: `irq`, `handler_data`, and
`dev_id: core::ptr::null_mut()`.  This is the state of the object from
construction until the `request_irq` call returns. -/
def IrqRegistration.initialSlot (irq : Nat) (hd : Data) : IrqRegistration Data :=
  ⟨irq, hd, 0⟩

/-- `IrqRegistration::request` from rust/kernel/irq.rs.  `selfAddr` is the
address of the pinned slot (the value of `slot_ptr`), and `ret` is the
status returned by the subsystem call `request_irq`.  The `pin_chain` block
passes `selfAddr` to `request_irq` as `dev_id`, panics when `ret < 0`, and
only on success writes `(*slot_ptr).dev_id = dev_id`. -/
def IrqRegistration.request (irq : Nat) (hd : Data) (flags : IrqFlags) (selfAddr : Nat)
    (ret : Int) : RequestOutcome (IrqRegistration Data) × List KernelCall :=
  let slot := IrqRegistration.initialSlot irq hd
  let dev_id := selfAddr
  let calls := [KernelCall.request_irq irq flags.raw dev_id]
  if ret < 0 then (.panicked, calls)
  else (.ok { slot with dev_id := dev_id }, calls)

/-- `PinnedDrop` for `IrqRegistration` (rust/kernel/irq.rs):
`free_irq(self.irq, self.dev_id)` using the stored fields. -/
def IrqRegistration.drop (r : IrqRegistration Data) : List KernelCall :=
  [KernelCall.free_irq r.irq r.dev_id]

/-- The operations available on a live registration: `enable`, `disable`,
`disable_nosync`, the `irq()` accessor, and a handler invocation through
the trampoline. -/
inductive RegOp where
  | enable
  | disable
  | disable_nosync
  | irqQuery
  | handlerCall
deriving DecidableEq, Repr

/-- Effect of one operation on an `IrqRegistration`.  All five take the
registration by shared reference and the struct has no interior
mutability, so the state is unchanged; `enable`, `disable` and
`disable_nosync` forward to the subsystem with the stored line number. -/
def IrqRegistration.applyOp (r : IrqRegistration Data) :
    RegOp → IrqRegistration Data × List KernelCall
  | .enable => (r, [.enable_irq r.irq])
  | .disable => (r, [.disable_irq r.irq])
  | .disable_nosync => (r, [.disable_irq_nosync r.irq])
  | .irqQuery => (r, [])
  | .handlerCall => (r, [])

/-- Run a sequence of operations on an `IrqRegistration`, collecting the
subsystem calls they make. -/
def IrqRegistration.runOps (r : IrqRegistration Data) :
    List RegOp → IrqRegistration Data × List KernelCall
  | [] => (r, [])
  | op :: ops =>
    let step := IrqRegistration.applyOp r op
    let rest := IrqRegistration.runOps step.1 ops
    (rest.1, step.2 ++ rest.2)

/-- `ThreadedIrqRegistration<T>` from rust/kernel/device/irq.rs: same shape
as `IrqRegistration`. -/
structure ThreadedIrqRegistration (Data : Type) where
  irq : Nat
  handler_data : Data
  dev_id : Nat

/-- The state written by the `pin_init!` block of
`ThreadedIrqRegistration::request` (`dev_id` is null). -/
def ThreadedIrqRegistration.initialSlot (irq : Nat) (hd : Data) :
    ThreadedIrqRegistration Data :=
  ⟨irq, hd, 0⟩

/-- `ThreadedIrqRegistration::request` from rust/kernel/device/irq.rs: like
`IrqRegistration::request` but registering both trampolines through
`request_threaded_irq`. -/
def ThreadedIrqRegistration.request (irq : Nat) (hd : Data) (flags : IrqFlags)
    (selfAddr : Nat) (ret : Int) :
    RequestOutcome (ThreadedIrqRegistration Data) × List KernelCall :=
  let slot := ThreadedIrqRegistration.initialSlot irq hd
  let dev_id := selfAddr
  let calls := [KernelCall.request_threaded_irq irq flags.raw dev_id]
  if ret < 0 then (.panicked, calls)
  else (.ok { slot with dev_id := dev_id }, calls)

/-- `PinnedDrop` for `ThreadedIrqRegistration` (rust/kernel/device/irq.rs):
`free_irq(self.irq, self.dev_id)`. -/
def ThreadedIrqRegistration.drop (r : ThreadedIrqRegistration Data) : List KernelCall :=
  [KernelCall.free_irq r.irq r.dev_id]

/-- Effect of one operation on a `ThreadedIrqRegistration`; as for
`IrqRegistration`, all operations take `&self` and the struct has no
interior mutability. -/
def ThreadedIrqRegistration.applyOp (r : ThreadedIrqRegistration Data) :
    RegOp → ThreadedIrqRegistration Data × List KernelCall
  | .enable => (r, [.enable_irq r.irq])
  | .disable => (r, [.disable_irq r.irq])
  | .disable_nosync => (r, [.disable_irq_nosync r.irq])
  | .irqQuery => (r, [])
  | .handlerCall => (r, [])

/-- Run a sequence of operations on a `ThreadedIrqRegistration`. -/
def ThreadedIrqRegistration.runOps (r : ThreadedIrqRegistration Data) :
    List RegOp → ThreadedIrqRegistration Data × List KernelCall
  | [] => (r, [])
  | op :: ops =>
    let step := ThreadedIrqRegistration.applyOp r op
    let rest := ThreadedIrqRegistration.runOps step.1 ops
    (rest.1, step.2 ++ rest.2)

theorem IrqRegistration.applyOp_fst (r : IrqRegistration Data) (op : RegOp) :
    (IrqRegistration.applyOp r op).1 = r := by
  cases op <;> rfl

theorem IrqRegistration.runOps_fst (r : IrqRegistration Data) (ops : List RegOp) :
    (IrqRegistration.runOps r ops).1 = r := by
  induction ops generalizing r with
  | nil => rfl
  | cons op ops ih =>
    cases op <;> simpa [IrqRegistration.runOps, IrqRegistration.applyOp] using ih r

theorem ThreadedIrqRegistration.threaded_runOps_fst (r : ThreadedIrqRegistration Data)
    (ops : List RegOp) : (ThreadedIrqRegistration.runOps r ops).1 = r := by
  induction ops generalizing r with
  | nil => rfl
  | cons op ops ih =>
    cases op <;> simpa [ThreadedIrqRegistration.runOps, ThreadedIrqRegistration.applyOp]
      using ih r

/-- C1: the stored correlation token (`dev_id`) is null (0) from
construction until the subsystem register call returns success; after a
successful `request` it equals the address of the registration object
itself (`selfAddr`, the slot pointer passed to the subsystem), and no
subsequent sequence of operations (enable, disable, disable_nosync, irq,
handler invocations) ever changes it — for both `IrqRegistration` and
`ThreadedIrqRegistration`. -/
theorem C1_correlation_token_lifecycle (Data : Type) (irq : Nat) (hd : Data)
    (flags : IrqFlags) (selfAddr : Nat) (ret : Int) (r : IrqRegistration Data)
    (rt : ThreadedIrqRegistration Data) (ops opsT : List RegOp)
    (hok : (IrqRegistration.request irq hd flags selfAddr ret).1 = RequestOutcome.ok r)
    (hokT : (ThreadedIrqRegistration.request irq hd flags selfAddr ret).1
      = RequestOutcome.ok rt) :
    (IrqRegistration.initialSlot irq hd).dev_id = 0 ∧
    (ThreadedIrqRegistration.initialSlot irq hd).dev_id = 0 ∧
    r.dev_id = selfAddr ∧
    rt.dev_id = selfAddr ∧
    ((IrqRegistration.runOps r ops).1).dev_id = r.dev_id ∧
    ((ThreadedIrqRegistration.runOps rt opsT).1).dev_id = rt.dev_id := by
  by_cases hret : ret < 0
  · simp [IrqRegistration.request, hret] at hok
  · simp [IrqRegistration.request, ThreadedIrqRegistration.request, hret] at hok hokT
    refine ⟨rfl, rfl, ?_, ?_, ?_, ?_⟩
    · rw [← hok]
    · rw [← hokT]
    · rw [IrqRegistration.runOps_fst]
    · rw [ThreadedIrqRegistration.threaded_runOps_fst]

theorem C1_correlation_token_lifecycle_witness :
    (IrqRegistration.initialSlot 7 (0 : Nat)).dev_id = 0 ∧
    (ThreadedIrqRegistration.initialSlot 7 (0 : Nat)).dev_id = 0 ∧
    (IrqRegistration.mk 7 (0 : Nat) 42).dev_id = 42 ∧
    (ThreadedIrqRegistration.mk 7 (0 : Nat) 42).dev_id = 42 ∧
    ((IrqRegistration.runOps (IrqRegistration.mk 7 (0 : Nat) 42)
      [RegOp.enable, RegOp.handlerCall, RegOp.disable]).1).dev_id
      = (IrqRegistration.mk 7 (0 : Nat) 42).dev_id ∧
    ((ThreadedIrqRegistration.runOps (ThreadedIrqRegistration.mk 7 (0 : Nat) 42)
      [RegOp.disable_nosync, RegOp.irqQuery]).1).dev_id
      = (ThreadedIrqRegistration.mk 7 (0 : Nat) 42).dev_id :=
  C1_correlation_token_lifecycle Nat 7 0 IrqFlags.NONE 42 0
    (IrqRegistration.mk 7 0 42) (ThreadedIrqRegistration.mk 7 0 42)
    [RegOp.enable, RegOp.handlerCall, RegOp.disable]
    [RegOp.disable_nosync, RegOp.irqQuery] rfl rfl

/-- C2: when the subsystem registration call returns a status `< 0`, both
request operations produce neither a registration object nor a typed
recoverable error: the in-place initializer panics (which aborts the whole
system). -/
theorem C2_request_failure_panics (Data : Type) (irq : Nat) (hd : Data) (flags : IrqFlags)
    (selfAddr : Nat) (ret : Int) (hfail : ret < 0) :
    (IrqRegistration.request irq hd flags selfAddr ret).1 = RequestOutcome.panicked ∧
    (ThreadedIrqRegistration.request irq hd flags selfAddr ret).1
      = RequestOutcome.panicked := by
  simp [IrqRegistration.request, ThreadedIrqRegistration.request, hfail]

theorem C2_request_failure_panics_witness :
    (IrqRegistration.request 7 (0 : Nat) IrqFlags.NONE 42 (-22)).1
      = RequestOutcome.panicked ∧
    (ThreadedIrqRegistration.request 7 (0 : Nat) IrqFlags.NONE 42 (-22)).1
      = RequestOutcome.panicked :=
  C2_request_failure_panics Nat 7 0 IrqFlags.NONE 42 (-22) (by decide)

/-- The whole-lifetime trace of an `IrqRegistration`: the request (which on
failure panics, so nothing further runs — in particular no teardown), then
an arbitrary sequence of operations, then the drop glue, then the owner
releasing the backing memory. -/
def IrqRegistration.lifecycleTrace (Data : Type) (irq : Nat) (hd : Data) (flags : IrqFlags)
    (selfAddr : Nat) (ret : Int) (ops : List RegOp) : List KernelCall :=
  match IrqRegistration.request irq hd flags selfAddr ret with
  | (.panicked, calls) => calls
  | (.ok r, calls) =>
    let run := IrqRegistration.runOps r ops
    calls ++ run.2 ++ IrqRegistration.drop run.1 ++ [KernelCall.memRelease selfAddr]

/-- The whole-lifetime trace of a `ThreadedIrqRegistration`. -/
def ThreadedIrqRegistration.lifecycleTrace (Data : Type) (irq : Nat) (hd : Data)
    (flags : IrqFlags) (selfAddr : Nat) (ret : Int) (ops : List RegOp) : List KernelCall :=
  match ThreadedIrqRegistration.request irq hd flags selfAddr ret with
  | (.panicked, calls) => calls
  | (.ok r, calls) =>
    let run := ThreadedIrqRegistration.runOps r ops
    calls ++ run.2 ++ ThreadedIrqRegistration.drop run.1 ++ [KernelCall.memRelease selfAddr]

theorem IrqRegistration.runOps_no_free (r : IrqRegistration Data) (ops : List RegOp) :
    ((IrqRegistration.runOps r ops).2).filter KernelCall.isFree = [] := by
  induction ops generalizing r with
  | nil => rfl
  | cons op ops ih =>
    cases op <;>
      simp [IrqRegistration.runOps, IrqRegistration.applyOp, List.filter_append,
        KernelCall.isFree, ih]

theorem ThreadedIrqRegistration.threaded_runOps_no_free (r : ThreadedIrqRegistration Data)
    (ops : List RegOp) :
    ((ThreadedIrqRegistration.runOps r ops).2).filter KernelCall.isFree = [] := by
  induction ops generalizing r with
  | nil => rfl
  | cons op ops ih =>
    cases op <;>
      simp [ThreadedIrqRegistration.runOps, ThreadedIrqRegistration.applyOp,
        List.filter_append, KernelCall.isFree, ih]

/-- C6: over a registration's whole lifetime, if the request succeeded then
exactly one `free_irq` call occurs, at teardown, with the stored line
number and correlation token, and it happens before the backing memory is
released (the trace ends with `free_irq` followed by the memory release);
if the subsystem registration step never succeeded, no `free_irq` call ever
occurs.  This holds for both registration types. -/
theorem C6_exactly_one_unregister (Data : Type) (irq : Nat) (hd : Data) (flags : IrqFlags)
    (selfAddr : Nat) (ret : Int) (ops : List RegOp) :
    (¬ret < 0 →
      ((IrqRegistration.lifecycleTrace Data irq hd flags selfAddr ret ops).filter
          KernelCall.isFree = [KernelCall.free_irq irq selfAddr] ∧
        ∃ pre, IrqRegistration.lifecycleTrace Data irq hd flags selfAddr ret ops
          = pre ++ [KernelCall.free_irq irq selfAddr, KernelCall.memRelease selfAddr]) ∧
      ((ThreadedIrqRegistration.lifecycleTrace Data irq hd flags selfAddr ret ops).filter
          KernelCall.isFree = [KernelCall.free_irq irq selfAddr] ∧
        ∃ pre, ThreadedIrqRegistration.lifecycleTrace Data irq hd flags selfAddr ret ops
          = pre ++ [KernelCall.free_irq irq selfAddr, KernelCall.memRelease selfAddr])) ∧
    (ret < 0 →
      (IrqRegistration.lifecycleTrace Data irq hd flags selfAddr ret ops).filter
        KernelCall.isFree = [] ∧
      (ThreadedIrqRegistration.lifecycleTrace Data irq hd flags selfAddr ret ops).filter
        KernelCall.isFree = []) := by
  constructor
  · intro hret
    have hfst := IrqRegistration.runOps_fst (IrqRegistration.mk irq hd selfAddr) ops
    have hfstT := ThreadedIrqRegistration.threaded_runOps_fst
      (ThreadedIrqRegistration.mk irq hd selfAddr) ops
    refine ⟨⟨?_, ⟨KernelCall.request_irq irq flags.raw selfAddr ::
        (IrqRegistration.runOps (IrqRegistration.mk irq hd selfAddr) ops).2, ?_⟩⟩,
      ?_, ⟨KernelCall.request_threaded_irq irq flags.raw selfAddr ::
        (ThreadedIrqRegistration.runOps (ThreadedIrqRegistration.mk irq hd selfAddr)
          ops).2, ?_⟩⟩ <;>
      simp [IrqRegistration.lifecycleTrace, ThreadedIrqRegistration.lifecycleTrace,
        IrqRegistration.request, ThreadedIrqRegistration.request,
        IrqRegistration.initialSlot, ThreadedIrqRegistration.initialSlot, hret,
        IrqRegistration.drop, ThreadedIrqRegistration.drop, hfst, hfstT,
        List.filter_append, KernelCall.isFree, IrqRegistration.runOps_no_free,
        ThreadedIrqRegistration.threaded_runOps_no_free]
  · intro hret
    constructor <;>
      simp [IrqRegistration.lifecycleTrace, ThreadedIrqRegistration.lifecycleTrace,
        IrqRegistration.request, ThreadedIrqRegistration.request, hret,
        KernelCall.isFree]

theorem C6_exactly_one_unregister_witness :
    (((IrqRegistration.lifecycleTrace Nat 7 0 IrqFlags.NONE 42 0 [RegOp.enable]).filter
        KernelCall.isFree = [KernelCall.free_irq 7 42] ∧
      ∃ pre, IrqRegistration.lifecycleTrace Nat 7 0 IrqFlags.NONE 42 0 [RegOp.enable]
        = pre ++ [KernelCall.free_irq 7 42, KernelCall.memRelease 42]) ∧
      ((ThreadedIrqRegistration.lifecycleTrace Nat 7 0 IrqFlags.NONE 42 0
          [RegOp.enable]).filter KernelCall.isFree = [KernelCall.free_irq 7 42] ∧
        ∃ pre, ThreadedIrqRegistration.lifecycleTrace Nat 7 0 IrqFlags.NONE 42 0
          [RegOp.enable]
          = pre ++ [KernelCall.free_irq 7 42, KernelCall.memRelease 42])) ∧
    ((IrqRegistration.lifecycleTrace Nat 7 0 IrqFlags.NONE 42 (-22) [RegOp.enable]).filter
        KernelCall.isFree = [] ∧
      (ThreadedIrqRegistration.lifecycleTrace Nat 7 0 IrqFlags.NONE 42 (-22)
          [RegOp.enable]).filter KernelCall.isFree = []) :=
  ⟨(C6_exactly_one_unregister Nat 7 0 IrqFlags.NONE 42 0 [RegOp.enable]).1 (by decide),
   (C6_exactly_one_unregister Nat 7 0 IrqFlags.NONE 42 (-22) [RegOp.enable]).2 (by decide)⟩

/-- `irq_handler_callback<T>` from rust/kernel/irq.rs: the C-callable hard
trampoline.  `handle` stands for `T::handle_irq` (the zero-sized
`IrqContext` marker is elided), and `deref` models dereferencing the
`dev_id` pointer back to the `IrqRegistration<T>` it points to.  The
`_irq` line-number argument is received and ignored; the handler result is
cast to its numeric encoding. -/
def irq_handler_callback (Data : Type) (handle : Data → IrqReturn)
    (deref : Nat → IrqRegistration Data) (_irqArg : Int) (dev_id : Nat) : Nat :=
  let reg := deref dev_id
  (handle reg.handler_data).toNat

/-- `irq_handler_callback<T>` from rust/kernel/device/irq.rs: the hard
trampoline of the threaded variant; `deref` resolves `dev_id` to the
`ThreadedIrqRegistration<T>`. -/
def device_irq_handler_callback (Data : Type) (handle : Data → IrqReturn)
    (deref : Nat → ThreadedIrqRegistration Data) (_irqArg : Int) (dev_id : Nat) : Nat :=
  let reg := deref dev_id
  (handle reg.handler_data).toNat

/-- `irq_thread_callback<T>` from rust/kernel/device/irq.rs: the
thread-stage trampoline; `handleT` stands for `T::handle_thread` (the
`ThreadContext` marker is elided). -/
def irq_thread_callback (Data : Type) (handleT : Data → IrqReturn)
    (deref : Nat → ThreadedIrqRegistration Data) (_irqArg : Int) (dev_id : Nat) : Nat :=
  let reg := deref dev_id
  (handleT reg.handler_data).toNat

/-- C9: every trampoline resolves only the correlation token (`dev_id`)
back to the registration object, and its result is independent of the raw
line-number argument: for any two invocations with the same token and
handler data but different raw line values, each trampoline returns the
same value, namely the numeric encoding of the typed handler's `IrqReturn`
applied to the registration's handler data. -/
theorem C9_trampoline_ignores_line (Data : Type) (handle handleT : Data → IrqReturn)
    (deref : Nat → IrqRegistration Data) (derefT : Nat → ThreadedIrqRegistration Data)
    (line1 line2 : Int) (dev : Nat) :
    (irq_handler_callback Data handle deref line1 dev
        = irq_handler_callback Data handle deref line2 dev ∧
      irq_handler_callback Data handle deref line1 dev
        = (handle (deref dev).handler_data).toNat) ∧
    (device_irq_handler_callback Data handle derefT line1 dev
        = device_irq_handler_callback Data handle derefT line2 dev ∧
      device_irq_handler_callback Data handle derefT line1 dev
        = (handle (derefT dev).handler_data).toNat) ∧
    (irq_thread_callback Data handleT derefT line1 dev
        = irq_thread_callback Data handleT derefT line2 dev ∧
      irq_thread_callback Data handleT derefT line1 dev
        = (handleT (derefT dev).handler_data).toNat) :=
  ⟨⟨rfl, rfl⟩, ⟨rfl, rfl⟩, ⟨rfl, rfl⟩⟩

/-- The local-CPU state visible to `with_irqs_disabled`: the
interrupt-enable flag saved and restored through `local_irq_save` /
`local_irq_restore`, plus an abstract component `data` standing for
everything else the body may modify. -/
structure CpuState where
  irqEnabled : Bool
  data : Nat
deriving DecidableEq, Repr

/-- The C primitive `local_irq_save(&mut flags)`: returns the saved
interrupt-enable state and the state with local interrupts disabled. -/
def local_irq_save (s : CpuState) : Bool × CpuState :=
  (s.irqEnabled, { s with irqEnabled := false })

/-- The C primitive `local_irq_restore(flags)`: restores the saved
interrupt-enable state, leaving the rest of the state alone. -/
def local_irq_restore (flags : Bool) (s : CpuState) : CpuState :=
  { s with irqEnabled := flags }

/-- Outcome of running the closure `f`: normal return with a value, or a
panic propagating out of it (each carrying the CPU state it left behind). -/
inductive BodyResult (T : Type) where
  | normal (t : T) (s : CpuState)
  | panicked (s : CpuState)
deriving DecidableEq, Repr

/-- `with_irqs_disabled` from rust/kernel/irq.rs: `local_irq_save`, then
`let result = f()`, then `local_irq_restore(flags)`, then `result`.  There
is no scope guard around `f()`, so when `f` exits abnormally the restore
statement is never reached and the abnormal exit propagates with the CPU
state exactly as the body left it. -/
def with_irqs_disabled (T : Type) (f : CpuState → BodyResult T) (s : CpuState) :
    BodyResult T :=
  let saved := (local_irq_save s).1
  let s1 := (local_irq_save s).2
  match f s1 with
  | .normal t s2 => .normal t (local_irq_restore saved s2)
  | .panicked s2 => .panicked s2

/-- C3 counterexample: `with_irqs_disabled` does NOT restore the saved
interrupt-enable state when the body exits abnormally.  With interrupts
initially enabled and a body that immediately panics, the state carried
out by the abnormal exit still has interrupts disabled, contradicting the
claim that the saved state (enabled) is restored on every exit path. -/
theorem C3_counterexample_no_restore_on_panic :
    with_irqs_disabled Unit (fun s => .panicked s) ⟨true, 0⟩
      = .panicked ⟨false, 0⟩ ∧
    (⟨false, 0⟩ : CpuState).irqEnabled ≠ ((local_irq_save ⟨true, 0⟩).1 : Bool) := by
  constructor
  · rfl
  · decide

/-- C3 amended: `with_irqs_disabled(body)` saves the current local
interrupt-enable state, disables interrupts, and runs the body on the
disabled state; when the body returns normally it restores exactly the
previously saved interrupt-enable state (preserving the body's other state
effects) and returns the body's result; when the body exits abnormally
the restore is skipped and the abnormal exit propagates with the state the
body left (in the kernel a panic aborts the system, so no code observes
it). -/
theorem C3_amended_save_disable_restore (T : Type) (f : CpuState → BodyResult T)
    (s : CpuState) :
    (∀ t s2, f ⟨false, s.data⟩ = .normal t s2 →
      with_irqs_disabled T f s = .normal t ⟨s.irqEnabled, s2.data⟩) ∧
    (∀ s2, f ⟨false, s.data⟩ = .panicked s2 →
      with_irqs_disabled T f s = .panicked s2) := by
  constructor
  · intro t s2 hf
    simp [with_irqs_disabled, local_irq_save, local_irq_restore, hf]
  · intro s2 hf
    simp [with_irqs_disabled, local_irq_save, hf]

theorem C3_amended_save_disable_restore_witness :
    with_irqs_disabled Nat (fun s => .normal s.data { s with data := s.data + 1 })
      ⟨true, 4⟩ = .normal 4 ⟨true, 5⟩ ∧
    with_irqs_disabled Nat (fun s => .panicked { s with data := 9 }) ⟨true, 4⟩
      = .panicked ⟨false, 9⟩ :=
  ⟨(C3_amended_save_disable_restore Nat
      (fun s => .normal s.data { s with data := s.data + 1 }) ⟨true, 4⟩).1
      4 ⟨false, 5⟩ rfl,
   (C3_amended_save_disable_restore Nat
      (fun s => .panicked { s with data := 9 }) ⟨true, 4⟩).2 ⟨false, 9⟩ rfl⟩

end LinuxIrq
